import Mathlib

/-!
Verification development for the `active_grasp` policy layer
(`src/policies.py`).

The repository is a ROS node: a `Policy` base class owns frame-aware pose
composition and grasp selection (`plan_best_grasp`), and two strategies
(`SingleViewBaseline`, `FixedTrajectoryBaseline`) drive the per-cycle loop.
External collaborators (TSDF volume, VGN grasp model, `compute_grasps`
extractor, tf lookups, ROS pub/sub) are out of scope: their outputs enter the
embedding as explicit inputs.

Modelling conventions:
* Rigid transforms (`robot_utils.spatial.Transform`) are a rotation matrix
  plus a translation vector with exact rational entries; composition is
  `(R1, t1) * (R2, t2) = (R1 R2, R1 t2 + t1)` and the inverse of a rotation
  is its transpose.
* `Rotation.from_euler("z", np.pi)` is embedded by its exact value
  `diag(-1, -1, 1)`.
* Python exceptions become an explicit error taxonomy: the `AttributeError`
  raised when `self.last_depth_img` was never set by `sensor_cb` is
  `SensorUnavailable`; the `IndexError` raised by `grasps[0]` on an empty
  candidate list is `NoGraspFound`; a tf lookup timeout is `LookupTimeout`.
* Object fields mutated in place become explicit state records threaded
  through the step functions; wall-clock instants (`rospy.Time`) are exact
  rationals supplied as inputs, while the circular-scan geometry lives in ℝ
  so that `np.cos`/`np.sin` become `Real.cos`/`Real.sin`.
-/

namespace ActiveGrasp

/-- A translation vector with exact rational coordinates. -/
structure Vec3 where
  x : ℚ
  y : ℚ
  z : ℚ
deriving DecidableEq, Repr

def Vec3.add (u v : Vec3) : Vec3 :=
  ⟨u.x + v.x, u.y + v.y, u.z + v.z⟩

def Vec3.neg (v : Vec3) : Vec3 :=
  ⟨-v.x, -v.y, -v.z⟩

/-- A 3x3 matrix with exact rational entries; `mIJ` is row `I`, column `J`.
The first column `(m00, m10, m20)` is the rotation's local forward axis,
matching `rot.as_matrix()[:, 0]` in the source. -/
structure Mat3 where
  m00 : ℚ
  m01 : ℚ
  m02 : ℚ
  m10 : ℚ
  m11 : ℚ
  m12 : ℚ
  m20 : ℚ
  m21 : ℚ
  m22 : ℚ
deriving DecidableEq, Repr

def Mat3.mul (a b : Mat3) : Mat3 :=
  ⟨a.m00 * b.m00 + a.m01 * b.m10 + a.m02 * b.m20,
   a.m00 * b.m01 + a.m01 * b.m11 + a.m02 * b.m21,
   a.m00 * b.m02 + a.m01 * b.m12 + a.m02 * b.m22,
   a.m10 * b.m00 + a.m11 * b.m10 + a.m12 * b.m20,
   a.m10 * b.m01 + a.m11 * b.m11 + a.m12 * b.m21,
   a.m10 * b.m02 + a.m11 * b.m12 + a.m12 * b.m22,
   a.m20 * b.m00 + a.m21 * b.m10 + a.m22 * b.m20,
   a.m20 * b.m01 + a.m21 * b.m11 + a.m22 * b.m21,
   a.m20 * b.m02 + a.m21 * b.m12 + a.m22 * b.m22⟩

def Mat3.transpose (a : Mat3) : Mat3 :=
  ⟨a.m00, a.m10, a.m20, a.m01, a.m11, a.m21, a.m02, a.m12, a.m22⟩

def Mat3.mulVec (a : Mat3) (v : Vec3) : Vec3 :=
  ⟨a.m00 * v.x + a.m01 * v.y + a.m02 * v.z,
   a.m10 * v.x + a.m11 * v.y + a.m12 * v.z,
   a.m20 * v.x + a.m21 * v.y + a.m22 * v.z⟩

def Mat3.id : Mat3 :=
  ⟨1, 0, 0, 0, 1, 0, 0, 0, 1⟩

/-- Exact value of `Rotation.from_euler("z", np.pi)`: a half turn about the
vertical (z) axis. -/
def rotZPi : Mat3 :=
  ⟨-1, 0, 0, 0, -1, 0, 0, 0, 1⟩

/-- `robot_utils.spatial.Transform`: a rigid pose, rotation plus translation. -/
structure Transform where
  rotation : Mat3
  translation : Vec3
deriving DecidableEq, Repr

/-- Transform composition (`__mul__` of `robot_utils.spatial.Transform`):
`(R1, t1) * (R2, t2) = (R1 R2, R1 t2 + t1)`. -/
def Transform.comp (a b : Transform) : Transform :=
  ⟨a.rotation.mul b.rotation, (a.rotation.mulVec b.translation).add a.translation⟩

/-- Transform inverse (`Transform.inv`): for a rotation matrix the inverse
rotation is the transpose, and the translation is `-(R⁻¹ t)`. -/
def Transform.inv (t : Transform) : Transform :=
  ⟨t.rotation.transpose, (t.rotation.transpose.mulVec t.translation).neg⟩

/-- The identity transform (identity rotation, zero translation). -/
def Transform.idT : Transform :=
  ⟨Mat3.id, ⟨0, 0, 0⟩⟩

/-- The orientation canonicalization step of `Policy.plan_best_grasp`
(lines 84-87): inspect the first column of the rotation matrix
(`axis = rot.as_matrix()[:, 0]`); if its component along the task frame's
x axis is negative (`axis[0] < 0`), post-multiply the rotation by a half
turn about z (`rot * Rotation.from_euler("z", np.pi)`). -/
def canonicalize (rot : Mat3) : Mat3 :=
  if rot.m00 < 0 then rot.mul rotZPi else rot

/-- A grasp candidate as produced by the external extractor
(`vgn.detection.compute_grasps`): pose in the task frame, quality score,
gripper width. -/
structure Grasp where
  pose : Transform
  score : ℚ
  width : ℚ
deriving DecidableEq, Repr

/-- The selected candidate after the in-place canonicalization
`grasp.pose.rotation = rot * Rotation.from_euler("z", np.pi)`: only the
pose's rotation field can change. -/
def canonGrasp (g : Grasp) : Grasp :=
  { g with pose := { g.pose with rotation := canonicalize g.pose.rotation } }

/-- Error taxonomy for per-cycle failures.  `SensorUnavailable` is the
`AttributeError` raised when `self.last_depth_img` was never written by
`Policy.sensor_cb`; `NoGraspFound` is the `IndexError` raised by
`grasps[0]` when `compute_grasps` returned an empty list; `LookupTimeout`
is a tf lookup exceeding its bound. -/
inductive PolicyError where
  | SensorUnavailable
  | NoGraspFound
  | LookupTimeout
deriving DecidableEq, Repr

/-- `Policy.plan_best_grasp` (lines 74-92), as a function of the data it
reads: the cached base-from-task transform `H_B_T`, the configured
end-effector grasp offset `H_EE_G`, and the candidate list `grasps`
returned by the external extractor for the current TSDF grid (grid
construction, VGN inference and visualization are external collaborators).
Because the source mutates `grasps[0].pose.rotation` in place, the
embedding returns the final candidate list alongside the end-effector
target `H_B_EE = H_B_T * H_T_G * H_EE_G.inv()`. -/
def plan_best_grasp (H_B_T H_EE_G : Transform) (grasps : List Grasp) :
    Except PolicyError (Transform × List Grasp) :=
  match grasps with
  | [] => .error .NoGraspFound
  | g :: rest =>
    let g' := canonGrasp g
    let H_T_G := g'.pose
    .ok ((H_B_T.comp H_T_G).comp H_EE_G.inv, g' :: rest)

/-- A sensor sample as stored by `Policy.sensor_cb` (lines 62-66): the
decoded depth image (an abstract payload identifier here) and the
camera-from-task extrinsic looked up at the message stamp.  The two fields
`last_depth_img` / `last_extrinsic` form the single current-sample slot;
a new arrival overwrites both. -/
structure SensorSample where
  depthImg : Nat
  extrinsic : Transform
deriving DecidableEq, Repr

/-- A translation vector with exact real coordinates, used for the
circular-scan geometry where `np.cos`/`np.sin` appear. -/
structure VecR where
  x : ℝ
  y : ℝ
  z : ℝ

def VecR.add (u v : VecR) : VecR :=
  ⟨u.x + v.x, u.y + v.y, u.z + v.z⟩

/-- The outcome of one `update()` decision cycle.  `commanded` is the pose
published on the `/target` topic; `planned` means the final grasp-selection
call ran and no motion command was issued; `failed` is a raised per-cycle
exception (object mutations performed before the raise persist in the
returned state). -/
inductive UpdateOutcome where
  | failed (e : PolicyError)
  | commanded (rotation : Mat3) (translation : VecR)
  | planned

/-- Mutable fields of a `SingleViewBaseline` object that the claims
observe.  `lastSample = none` models the attributes `last_depth_img` /
`last_extrinsic` never having been set by `sensor_cb`; `done = none`
models the `done` attribute not existing yet (NotStarted); `tsdf` is the
log of extrinsics integrated into the TSDF volume; `H_B_T` is the
base-from-task transform cached at construction and `H_EE_G` the
configured `ee_grasp_offset`. -/
structure SingleViewState where
  H_B_T : Transform
  H_EE_G : Transform
  lastSample : Option SensorSample
  tsdf : List SensorSample
  done : Option Bool
  bestGrasp : Option Transform
deriving DecidableEq, Repr

/-- `Policy.sensor_cb`: unconditionally overwrite the single
current-sample slot (last-write-wins, no buffering). -/
def Policy.sensor_cb (msg : SensorSample) (s : SingleViewState) : SingleViewState :=
  { s with lastSample := some msg }

/-- `SingleViewBaseline.start` (lines 99-100): `self.done = False`. -/
def SingleViewBaseline.start (s : SingleViewState) : SingleViewState :=
  { s with done := some false }

/-- `SingleViewBaseline.update` (lines 102-117): integrate the current
sample into the TSDF (raising `SensorUnavailable` if none was ever
ingested), then plan the best grasp from the extractor's candidate list
`grasps` and transition to done.  Visualization calls are external and
effect-free on this state. -/
def SingleViewBaseline.update (grasps : List Grasp) (s : SingleViewState) :
    SingleViewState × UpdateOutcome :=
  match s.lastSample with
  | none => (s, .failed .SensorUnavailable)
  | some sample =>
    let s1 := { s with tsdf := s.tsdf ++ [sample] }
    match plan_best_grasp s.H_B_T s.H_EE_G grasps with
    | .error e => (s1, .failed e)
    | .ok (target, _) =>
      ({ s1 with bestGrasp := some target, done := some true }, .planned)

/-- `FixedTrajectoryBaseline.__init__` (line 123): `self.duration = 4.0`
seconds. -/
def duration : ℚ := 4

/-- `FixedTrajectoryBaseline.__init__` (line 124): `self.radius = 0.1`. -/
def radius : ℚ := 1 / 10

/-- The linear interpolation `scipy.interpolate.interp1d([0, 4.0],
[np.pi, 3.0 * np.pi])` built in `FixedTrajectoryBaseline.__init__`
(line 125), evaluated at an elapsed time `t` in its domain `[0, D]`:
`angle(t) = pi + (t / D) * (3 pi - pi)`. -/
noncomputable def angleInterp (t : ℚ) : ℝ :=
  Real.pi + ((t : ℝ) / (duration : ℝ)) * (3 * Real.pi - Real.pi)

/-- Mutable fields of a `FixedTrajectoryBaseline` object that the claims
observe.  In addition to the shared `Policy` fields, `tic` is the episode
start instant recorded by `start()`, `origin` the circle center, and
`targetRotation` / `targetTranslation` the components of `self.target`
(the orientation captured at `start()` is retained for every commanded
pose; only the translation is rewritten each cycle).  Wall-clock instants
are exact rationals. -/
structure FixedTrajState where
  H_B_T : Transform
  H_EE_G : Transform
  lastSample : Option SensorSample
  tsdf : List SensorSample
  done : Option Bool
  bestGrasp : Option Transform
  tic : ℚ
  origin : VecR
  targetRotation : Mat3
  targetTranslation : VecR

/-- `FixedTrajectoryBaseline.start` (lines 127-133): record the start
instant `now`, look up the current base-from-end-effector pose `x0`
(rotation `x0rot`, translation `x0tr`, supplied by the external tf tree),
set `origin = (x0.translation[0] + radius, x0.translation[1],
x0.translation[2])`, retain `x0` as the command target, and set
`done = False`. -/
def FixedTrajectoryBaseline.start (now : ℚ) (x0rot : Mat3) (x0tr : VecR)
    (s : FixedTrajState) : FixedTrajState :=
  { s with tic := now,
           origin := ⟨x0tr.x + (radius : ℝ), x0tr.y, x0tr.z⟩,
           targetRotation := x0rot,
           targetTranslation := x0tr,
           done := some false }

/-- `FixedTrajectoryBaseline.update` (lines 135-158): compute the elapsed
time since `start()`, integrate the current sample (raising
`SensorUnavailable` if none was ever ingested), then either run the final
grasp selection and transition to done (strictly after the scan duration)
or command the next pose on the circle: translation
`origin + (radius * cos(angle), radius * sin(angle), 0)` with the retained
orientation, published on `/target`. -/
noncomputable def FixedTrajectoryBaseline.update (now : ℚ) (grasps : List Grasp)
    (s : FixedTrajState) : FixedTrajState × UpdateOutcome :=
  match s.lastSample with
  | none => (s, .failed .SensorUnavailable)
  | some sample =>
    let elapsed := now - s.tic
    let s1 := { s with tsdf := s.tsdf ++ [sample] }
    if duration < elapsed then
      match plan_best_grasp s.H_B_T s.H_EE_G grasps with
      | .error e => (s1, .failed e)
      | .ok (target, _) =>
        ({ s1 with bestGrasp := some target, done := some true }, .planned)
    else
      let a := angleInterp elapsed
      let tr := s.origin.add ⟨(radius : ℝ) * Real.cos a, (radius : ℝ) * Real.sin a, 0⟩
      ({ s1 with targetTranslation := tr }, .commanded s.targetRotation tr)

/-- The two policy variants constructed by `get_policy`. -/
inductive PolicyKind where
  | singleView
  | fixedTrajectory
deriving DecidableEq, Repr

/-- `get_policy` (lines 19-25): dispatch on the exact policy name, raising
`ValueError("{} policy does not exist.".format(name))` otherwise. -/
def get_policy (name : String) : Except String PolicyKind :=
  if name = "single-view" then .ok .singleView
  else if name = "fixed-trajectory" then .ok .fixedTrajectory
  else .error (name ++ " policy does not exist.")

/-! Concrete scenario data used by witnesses and counterexamples. -/

/-- A concrete ingested sensor sample. -/
def scenSample : SensorSample := ⟨0, Transform.idT⟩

/-- A concrete grasp candidate whose forward axis already points along the
task frame's positive x axis (score 0.9, width 0.05). -/
def scenGrasp : Grasp := ⟨Transform.idT, 9 / 10, 1 / 20⟩

/-- A concrete grasp candidate whose forward axis has a negative x
component (`m00 = -1`), forcing the canonicalization flip. -/
def gNeg : Grasp := ⟨⟨rotZPi, ⟨0, 0, 0⟩⟩, 9 / 10, 1 / 20⟩

/-- A freshly constructed `SingleViewBaseline` (one sample already
ingested, `start`/`update` never called). -/
def svInit : SingleViewState :=
  ⟨Transform.idT, Transform.idT, some scenSample, [], none, none⟩

/-- A `SingleViewBaseline` on which the sensor callback has never run. -/
def svNoSample : SingleViewState :=
  ⟨Transform.idT, Transform.idT, none, [], some false, none⟩

/-- A `SingleViewBaseline` that has already reached done. -/
def svDone : SingleViewState :=
  ⟨Transform.idT, Transform.idT, some scenSample, [], some true, none⟩

/-- A freshly constructed `FixedTrajectoryBaseline` (one sample ingested;
the `tic`/`origin`/`target` attributes do not exist before `start()`, so
their values here are placeholders that `start` overwrites). -/
def ftInit : FixedTrajState :=
  ⟨Transform.idT, Transform.idT, some scenSample, [], none, none, 0,
   ⟨0, 0, 0⟩, Mat3.id, ⟨0, 0, 0⟩⟩

/-- A `FixedTrajectoryBaseline` that has already reached done. -/
def ftDone : FixedTrajState :=
  ⟨Transform.idT, Transform.idT, some scenSample, [], some true, none, 0,
   ⟨0, 0, 0⟩, Mat3.id, ⟨0, 0, 0⟩⟩

/-- The spec scenario's start pose translation `x0 = (0.5, 0, 0.3)`. -/
noncomputable def scenX0 : VecR := ⟨1 / 2, 0, 3 / 10⟩

/-- The spec scenario's state after `start()` at time 0 with start pose
translation `(0.5, 0, 0.3)` and identity orientation. -/
noncomputable def scenState : FixedTrajState :=
  FixedTrajectoryBaseline.start 0 Mat3.id scenX0 ftInit

/-! Helper lemmas. -/

theorem Mat3.mul_id (a : Mat3) : a.mul Mat3.id = a := by
  cases a
  simp [Mat3.mul, Mat3.id]

theorem Transform.comp_idT (x : Transform) : x.comp Transform.idT = x := by
  cases x with
  | mk r t =>
    cases t
    simp [Transform.comp, Transform.idT, Mat3.mul_id, Mat3.mulVec, Vec3.add]

theorem Transform.idT_inv : Transform.idT.inv = Transform.idT := by
  simp only [Transform.inv, Transform.idT, Mat3.transpose, Mat3.id, Mat3.mulVec, Vec3.neg]
  norm_num

theorem canonicalize_m00_nonneg (rot : Mat3) : 0 ≤ (canonicalize rot).m00 := by
  by_cases h : rot.m00 < 0
  · simp only [canonicalize, if_pos h, Mat3.mul, rotZPi]
    linarith
  · simp only [canonicalize, if_neg h]
    exact not_lt.mp h

theorem canonicalize_fix (rot : Mat3) (h : 0 ≤ rot.m00) : canonicalize rot = rot := by
  simp [canonicalize, not_lt.mpr h]

theorem canonicalize_rotZPi : canonicalize rotZPi = Mat3.id := by
  rw [canonicalize, if_pos (show rotZPi.m00 < 0 by norm_num [rotZPi])]
  norm_num [rotZPi, Mat3.mul, Mat3.id]

theorem canonGrasp_scenGrasp : canonGrasp scenGrasp = scenGrasp := by
  show Grasp.mk ⟨canonicalize Mat3.id, ⟨0, 0, 0⟩⟩ (9 / 10) (1 / 20) = _
  rw [canonicalize_fix Mat3.id (by norm_num [Mat3.id])]
  rfl

theorem canonGrasp_gNeg : canonGrasp gNeg = ⟨Transform.idT, 9 / 10, 1 / 20⟩ := by
  show Grasp.mk ⟨canonicalize rotZPi, ⟨0, 0, 0⟩⟩ (9 / 10) (1 / 20) = _
  rw [canonicalize_rotZPi]
  rfl

theorem plan_scen :
    plan_best_grasp Transform.idT Transform.idT [scenGrasp] =
      .ok (Transform.idT, [canonGrasp scenGrasp]) := by
  show Except.ok
      ((Transform.idT.comp (canonGrasp scenGrasp).pose).comp Transform.idT.inv,
        [canonGrasp scenGrasp]) = _
  rw [Transform.idT_inv, Transform.comp_idT, canonGrasp_scenGrasp]
  rw [show scenGrasp.pose = Transform.idT from rfl, Transform.comp_idT]

/-! Claim theorems. -/

/-- C1: the end-effector target returned by `plan_best_grasp` is the
composition, in fixed order, of the cached base-from-task transform, the
selected candidate's pose, and the inverse of the end-effector grasp
offset; with an identity offset the target is exactly the base transform
composed with the candidate's pose. -/
theorem plan_best_grasp_three_transform_composition
    (H_B_T H_EE_G target : Transform) (grasps rest : List Grasp) (g' : Grasp)
    (h : plan_best_grasp H_B_T H_EE_G grasps = .ok (target, g' :: rest)) :
    target = (H_B_T.comp g'.pose).comp H_EE_G.inv ∧
      (H_EE_G = Transform.idT → target = H_B_T.comp g'.pose) := by
  cases grasps with
  | nil => simp [plan_best_grasp] at h
  | cons g gs =>
    simp only [plan_best_grasp, Except.ok.injEq, Prod.mk.injEq, List.cons.injEq] at h
    obtain ⟨h1, h2, h3⟩ := h
    subst h1
    subst h2
    refine ⟨rfl, ?_⟩
    intro hE
    subst hE
    rw [Transform.idT_inv, Transform.comp_idT]

/-- Witness for C1: concrete base transform, identity offset, one
candidate. -/
theorem plan_best_grasp_three_transform_composition_witness :
    Transform.idT = (Transform.idT.comp (canonGrasp scenGrasp).pose).comp Transform.idT.inv ∧
      Transform.idT = Transform.idT.comp (canonGrasp scenGrasp).pose :=
  ⟨(plan_best_grasp_three_transform_composition Transform.idT Transform.idT Transform.idT
      [scenGrasp] [] (canonGrasp scenGrasp) plan_scen).1,
   (plan_best_grasp_three_transform_composition Transform.idT Transform.idT Transform.idT
      [scenGrasp] [] (canonGrasp scenGrasp) plan_scen).2 rfl⟩

/-- C2: on an empty candidate list from the extractor, `plan_best_grasp`
fails with the distinguishable error `NoGraspFound` (the `IndexError`
raised by `grasps[0]` on an empty list); no candidate is ever obtained or
dereferenced and no target pose is produced. -/
theorem plan_best_grasp_empty_no_grasp_found (H_B_T H_EE_G : Transform) :
    plan_best_grasp H_B_T H_EE_G [] = .error .NoGraspFound := rfl

/-- C3: on a non-empty candidate list `plan_best_grasp` takes the first
(best-scored) candidate; if the first column of its rotation matrix has a
negative x component, the orientation is post-multiplied by a half turn
about the vertical axis, otherwise it is left unchanged; the
canonicalized forward axis always has a non-negative x component. -/
theorem plan_best_grasp_selects_first_and_canonicalizes
    (H_B_T H_EE_G : Transform) (g : Grasp) (rest : List Grasp) :
    plan_best_grasp H_B_T H_EE_G (g :: rest) =
        .ok ((H_B_T.comp (canonGrasp g).pose).comp H_EE_G.inv, canonGrasp g :: rest)
      ∧ (g.pose.rotation.m00 < 0 →
          (canonGrasp g).pose.rotation = g.pose.rotation.mul rotZPi)
      ∧ (0 ≤ g.pose.rotation.m00 → canonGrasp g = g)
      ∧ 0 ≤ (canonGrasp g).pose.rotation.m00 := by
  refine ⟨rfl, ?_, ?_, ?_⟩
  · intro h
    simp [canonGrasp, canonicalize, h]
  · intro h
    simp [canonGrasp, canonicalize_fix _ h]
  · exact canonicalize_m00_nonneg g.pose.rotation

/-- Witness for C3 at a candidate whose forward axis points along the
negative x axis. -/
theorem plan_best_grasp_selects_first_and_canonicalizes_witness :
    plan_best_grasp Transform.idT Transform.idT [gNeg] =
        .ok ((Transform.idT.comp (canonGrasp gNeg).pose).comp Transform.idT.inv,
          [canonGrasp gNeg])
      ∧ (canonGrasp gNeg).pose.rotation = gNeg.pose.rotation.mul rotZPi
      ∧ 0 ≤ (canonGrasp gNeg).pose.rotation.m00 :=
  ⟨(plan_best_grasp_selects_first_and_canonicalizes Transform.idT Transform.idT gNeg []).1,
   (plan_best_grasp_selects_first_and_canonicalizes Transform.idT Transform.idT gNeg []).2.1
     (by norm_num [gNeg, rotZPi]),
   (plan_best_grasp_selects_first_and_canonicalizes Transform.idT Transform.idT gNeg []).2.2.2⟩

/-- C4: orientation canonicalization is idempotent, and on an
already-canonical orientation (non-negative forward-axis x component) it
is a no-op. -/
theorem canonicalize_idempotent (rot : Mat3) :
    canonicalize (canonicalize rot) = canonicalize rot ∧
      (0 ≤ rot.m00 → canonicalize rot = rot) :=
  ⟨canonicalize_fix _ (canonicalize_m00_nonneg rot), fun h => canonicalize_fix rot h⟩

/-- Witness for C4: a flipped orientation and an already-canonical one. -/
theorem canonicalize_idempotent_witness :
    canonicalize (canonicalize rotZPi) = canonicalize rotZPi ∧
      canonicalize Mat3.id = Mat3.id :=
  ⟨(canonicalize_idempotent rotZPi).1,
   (canonicalize_idempotent Mat3.id).2 (by norm_num [Mat3.id])⟩

/-- C9 counterexample: `plan_best_grasp` mutates the selected candidate in
place: for a candidate whose forward axis has a negative x component, the
candidate in the list after the call differs from the one the extractor
produced (its pose rotation was overwritten). -/
theorem plan_best_grasp_mutates_candidate_cex :
    plan_best_grasp Transform.idT Transform.idT [gNeg] =
        .ok (Transform.idT, [canonGrasp gNeg])
      ∧ canonGrasp gNeg ≠ gNeg := by
  constructor
  · show Except.ok
        ((Transform.idT.comp (canonGrasp gNeg).pose).comp Transform.idT.inv,
          [canonGrasp gNeg]) = _
    rw [Transform.idT_inv, Transform.comp_idT, canonGrasp_gNeg]
    rw [show (Grasp.mk Transform.idT (9 / 10) (1 / 20)).pose = Transform.idT from rfl,
        Transform.comp_idT]
  · rw [canonGrasp_gNeg]
    intro hEq
    have : Transform.idT.rotation.m00 = gNeg.pose.rotation.m00 := by rw [← hEq]
    norm_num [Transform.idT, Mat3.id, gNeg, rotZPi] at this

/-- C9 (amended): `plan_best_grasp` mutates exactly the selected (first)
candidate's pose rotation, and only when the canonicalization flips it;
the candidate's score, width and translation, and all remaining
candidates, are left unmodified. -/
theorem plan_best_grasp_mutation_profile
    (H_B_T H_EE_G : Transform) (g : Grasp) (rest : List Grasp) :
    plan_best_grasp H_B_T H_EE_G (g :: rest) =
        .ok ((H_B_T.comp (canonGrasp g).pose).comp H_EE_G.inv, canonGrasp g :: rest)
      ∧ (canonGrasp g).score = g.score
      ∧ (canonGrasp g).width = g.width
      ∧ (canonGrasp g).pose.translation = g.pose.translation :=
  ⟨rfl, rfl, rfl, rfl⟩

/-- C10: the policy factory returns the SingleView strategy exactly for
"single-view", the FixedTrajectory strategy exactly for
"fixed-trajectory", and raises `ValueError` stating the policy does not
exist for every other name. -/
theorem get_policy_spec :
    get_policy "single-view" = .ok .singleView
    ∧ get_policy "fixed-trajectory" = .ok .fixedTrajectory
    ∧ ∀ name : String, name ≠ "single-view" → name ≠ "fixed-trajectory" →
        get_policy name = .error (name ++ " policy does not exist.") := by
  refine ⟨rfl, rfl, ?_⟩
  intro name h1 h2
  simp [get_policy, h1, h2]

/-- Witness for C10: an unrecognized policy name. -/
theorem get_policy_spec_witness :
    get_policy "top-down" = .error ("top-down" ++ " policy does not exist.") :=
  get_policy_spec.2.2 "top-down" (by decide) (by decide)

/-- C5: if the sensor callback has never run (no sample was ever
ingested), an `update()` call fails with `SensorUnavailable` (the
`AttributeError` on the never-written `last_depth_img` attribute) and
leaves the state untouched: no stale or default data is substituted. -/
theorem update_without_sample_sensor_unavailable
    (grasps : List Grasp) (s : SingleViewState) (h : s.lastSample = none) :
    SingleViewBaseline.update grasps s = (s, .failed .SensorUnavailable) := by
  simp [SingleViewBaseline.update, h]

/-- Witness for C5: a strategy whose sensor callback never ran. -/
theorem update_without_sample_sensor_unavailable_witness :
    SingleViewBaseline.update [] svNoSample = (svNoSample, .failed .SensorUnavailable) :=
  update_without_sample_sensor_unavailable [] svNoSample rfl

/-- C8 counterexample: the episode state is not monotonic over every
sequence of `start()` and `update()` calls: after `start(); update()`
reaches done, a second `start()` resets the done flag back to false. -/
theorem done_flag_reset_by_start_cex :
    (SingleViewBaseline.update [scenGrasp] (SingleViewBaseline.start svInit)).1.done
        = some true
      ∧ (SingleViewBaseline.start
          (SingleViewBaseline.update [scenGrasp] (SingleViewBaseline.start svInit)).1).done
        = some false :=
  ⟨rfl, rfl⟩

/-- C8 (amended): the done flag never regresses under `update()` calls,
for either strategy: an `update()` on a strategy that has reached done
leaves the flag true (it only ever sets it to true, never back to false).
Monotonicity over sequences that also repeat `start()` fails, because
`start()` begins a new episode and resets the flag to false. -/
theorem done_monotone_under_update :
    (∀ grasps s, s.done = some true →
      (SingleViewBaseline.update grasps s).1.done = some true)
    ∧ (∀ now grasps s, s.done = some true →
        (FixedTrajectoryBaseline.update now grasps s).1.done = some true) := by
  constructor
  · intro grasps s h
    cases hls : s.lastSample with
    | none => simp [SingleViewBaseline.update, hls, h]
    | some sample =>
      cases hp : plan_best_grasp s.H_B_T s.H_EE_G grasps with
      | error e => simp [SingleViewBaseline.update, hls, hp, h]
      | ok v =>
        obtain ⟨target, l⟩ := v
        simp [SingleViewBaseline.update, hls, hp]
  · intro now grasps s h
    cases hls : s.lastSample with
    | none => simp [FixedTrajectoryBaseline.update, hls, h]
    | some sample =>
      by_cases hc : duration < now - s.tic
      · cases hp : plan_best_grasp s.H_B_T s.H_EE_G grasps with
        | error e => simp [FixedTrajectoryBaseline.update, hls, hc, hp, h]
        | ok v =>
          obtain ⟨target, l⟩ := v
          simp [FixedTrajectoryBaseline.update, hls, hc, hp]
      · simp [FixedTrajectoryBaseline.update, hls, hc, h]

/-- Witness for C8 (amended): concrete done strategies stay done across
an `update()`. -/
theorem done_monotone_under_update_witness :
    (SingleViewBaseline.update [] svDone).1.done = some true
      ∧ (FixedTrajectoryBaseline.update 0 [] ftDone).1.done = some true :=
  ⟨done_monotone_under_update.1 [] svDone rfl,
   done_monotone_under_update.2 0 [] ftDone rfl⟩

/-! Trajectory helper lemmas. -/

theorem angleInterp_zero : angleInterp 0 = Real.pi := by
  simp [angleInterp]

theorem angleInterp_two : angleInterp 2 = 2 * Real.pi := by
  simp only [angleInterp, duration]
  push_cast
  ring

theorem angleInterp_four : angleInterp 4 = Real.pi + 2 * Real.pi := by
  simp only [angleInterp, duration]
  push_cast
  ring

theorem cos_angleInterp_four : Real.cos (angleInterp 4) = -1 := by
  rw [angleInterp_four, Real.cos_add_two_pi, Real.cos_pi]

theorem sin_angleInterp_four : Real.sin (angleInterp 4) = 0 := by
  rw [angleInterp_four, Real.sin_add_two_pi, Real.sin_pi]

/-- One `update()` of the FixedTrajectory strategy while the elapsed time
has not strictly exceeded the scan duration: the current sample is
integrated and the next pose on the circle is published. -/
theorem ft_update_command (now : ℚ) (grasps : List Grasp) (s : FixedTrajState)
    (sample : SensorSample) (hs : s.lastSample = some sample)
    (h : ¬ duration < now - s.tic) :
    FixedTrajectoryBaseline.update now grasps s =
      ({ s with tsdf := s.tsdf ++ [sample],
                targetTranslation := s.origin.add
                  ⟨(radius : ℝ) * Real.cos (angleInterp (now - s.tic)),
                   (radius : ℝ) * Real.sin (angleInterp (now - s.tic)), 0⟩ },
       .commanded s.targetRotation
         (s.origin.add
           ⟨(radius : ℝ) * Real.cos (angleInterp (now - s.tic)),
            (radius : ℝ) * Real.sin (angleInterp (now - s.tic)), 0⟩)) := by
  simp [FixedTrajectoryBaseline.update, hs, h]

/-- One `update()` of the FixedTrajectory strategy strictly after the scan
duration: the current sample is integrated, the final grasp selection runs
and the strategy transitions to done without publishing a command. -/
theorem ft_update_planning (now : ℚ) (grasps : List Grasp) (s : FixedTrajState)
    (sample : SensorSample) (target : Transform) (l : List Grasp)
    (hs : s.lastSample = some sample) (h : duration < now - s.tic)
    (hp : plan_best_grasp s.H_B_T s.H_EE_G grasps = .ok (target, l)) :
    FixedTrajectoryBaseline.update now grasps s =
      ({ s with tsdf := s.tsdf ++ [sample], bestGrasp := some target,
                done := some true }, .planned) := by
  simp [FixedTrajectoryBaseline.update, hs, h, hp]

theorem scenState_origin : scenState.origin = ⟨3 / 5, 0, 3 / 10⟩ := by
  show VecR.mk (scenX0.x + (radius : ℝ)) scenX0.y scenX0.z = _
  simp only [scenX0, radius]
  push_cast
  norm_num

/-- C6: FixedTrajectory scenario with D = 4.0, r = 0.1 and start pose
translation (0.5, 0, 0.3): `start()` sets origin = (0.6, 0, 0.3); an
`update()` at elapsed t = 0 (angle pi) commands translation
(0.5, 0, 0.3) and one at t = 2 (angle 2 pi) commands (0.7, 0, 0.3); in
general every `update()` with 0 <= t <= D commands the point of the
circle of radius r about the origin at angle(t) = pi + (t / D) * 2 pi. -/
theorem fixed_trajectory_scan_scenario :
    scenState.origin = ⟨3 / 5, 0, 3 / 10⟩
    ∧ (FixedTrajectoryBaseline.update 0 [scenGrasp] scenState).2 =
        .commanded Mat3.id ⟨1 / 2, 0, 3 / 10⟩
    ∧ (FixedTrajectoryBaseline.update 2 [scenGrasp] scenState).2 =
        .commanded Mat3.id ⟨7 / 10, 0, 3 / 10⟩
    ∧ ∀ t : ℚ, 0 ≤ t → t ≤ duration →
        (FixedTrajectoryBaseline.update t [scenGrasp] scenState).2 =
          .commanded Mat3.id
            (VecR.add ⟨3 / 5, 0, 3 / 10⟩
              ⟨(radius : ℝ) * Real.cos (angleInterp t),
               (radius : ℝ) * Real.sin (angleInterp t), 0⟩) := by
  have htic : scenState.tic = 0 := rfl
  have hgen : ∀ t : ℚ, 0 ≤ t → t ≤ duration →
      (FixedTrajectoryBaseline.update t [scenGrasp] scenState).2 =
        .commanded Mat3.id
          (VecR.add ⟨3 / 5, 0, 3 / 10⟩
            ⟨(radius : ℝ) * Real.cos (angleInterp t),
             (radius : ℝ) * Real.sin (angleInterp t), 0⟩) := by
    intro t h0 hD
    have hcond : ¬ duration < t - scenState.tic := by
      rw [htic, sub_zero]
      exact not_lt.mpr hD
    rw [ft_update_command t [scenGrasp] scenState scenSample rfl hcond]
    simp only [htic, sub_zero, scenState_origin]
    rfl
  refine ⟨scenState_origin, ?_, ?_, hgen⟩
  · rw [hgen 0 le_rfl (by norm_num [duration])]
    rw [angleInterp_zero, Real.cos_pi, Real.sin_pi]
    simp only [VecR.add, UpdateOutcome.commanded.injEq, VecR.mk.injEq]
    push_cast [radius]
    norm_num
  · rw [hgen 2 (by norm_num) (by norm_num [duration])]
    rw [angleInterp_two, Real.cos_two_pi, Real.sin_two_pi]
    simp only [VecR.add, UpdateOutcome.commanded.injEq, VecR.mk.injEq]
    push_cast [radius]
    norm_num

/-- Witness for C6: the general circle conjunct at the concrete elapsed
time t = 1. -/
theorem fixed_trajectory_scan_scenario_witness :
    (FixedTrajectoryBaseline.update 1 [scenGrasp] scenState).2 =
      .commanded Mat3.id
        (VecR.add ⟨3 / 5, 0, 3 / 10⟩
          ⟨(radius : ℝ) * Real.cos (angleInterp 1),
           (radius : ℝ) * Real.sin (angleInterp 1), 0⟩) :=
  fixed_trajectory_scan_scenario.2.2.2 1 (by norm_num) (by norm_num [duration])

/-- C7 counterexample: at elapsed time exactly equal to the scan duration
(t = 4.0 with D = 4.0) the update dispatches a motion command (angle 3 pi,
translation (0.5, 0, 0.3)) and does NOT transition to done: the
`elapsed_time > self.duration` test is strict. -/
theorem ft_update_at_boundary_commands_motion :
    (FixedTrajectoryBaseline.update 4 [scenGrasp] scenState).2 =
        .commanded Mat3.id ⟨1 / 2, 0, 3 / 10⟩
      ∧ (FixedTrajectoryBaseline.update 4 [scenGrasp] scenState).1.done = some false := by
  have htic : scenState.tic = 0 := rfl
  have hcond : ¬ duration < (4 : ℚ) - scenState.tic := by
    rw [htic, sub_zero]
    norm_num [duration]
  have h := ft_update_command 4 [scenGrasp] scenState scenSample rfl hcond
  constructor
  · rw [h]
    simp only [htic, sub_zero, scenState_origin]
    rw [cos_angleInterp_four, sin_angleInterp_four]
    simp only [VecR.add, UpdateOutcome.commanded.injEq, VecR.mk.injEq]
    push_cast [radius]
    norm_num
    rfl
  · rw [h]
    rfl

/-- C7 (amended): the scan-duration test is strict: an `update()` at
elapsed time exactly equal to D still dispatches a motion command (at
angle 3 pi) and leaves the done flag unchanged; the final planning call
and the transition to done happen on the first `update()` whose elapsed
time strictly exceeds D. -/
theorem ft_update_strict_boundary
    (now : ℚ) (grasps : List Grasp) (s : FixedTrajState) (sample : SensorSample)
    (target : Transform) (l : List Grasp) (hs : s.lastSample = some sample) :
    (now - s.tic = duration →
      (FixedTrajectoryBaseline.update now grasps s).2 =
          .commanded s.targetRotation
            (s.origin.add
              ⟨(radius : ℝ) * Real.cos (angleInterp (now - s.tic)),
               (radius : ℝ) * Real.sin (angleInterp (now - s.tic)), 0⟩)
        ∧ (FixedTrajectoryBaseline.update now grasps s).1.done = s.done)
    ∧ (duration < now - s.tic →
        plan_best_grasp s.H_B_T s.H_EE_G grasps = .ok (target, l) →
        FixedTrajectoryBaseline.update now grasps s =
          ({ s with tsdf := s.tsdf ++ [sample], bestGrasp := some target,
                    done := some true }, .planned)) := by
  constructor
  · intro he
    have hcond : ¬ duration < now - s.tic := by
      rw [he]
      exact lt_irrefl _
    rw [ft_update_command now grasps s sample hs hcond]
    exact ⟨rfl, rfl⟩
  · intro hlt hp
    exact ft_update_planning now grasps s sample target l hs hlt hp

/-- Witness for C7 (amended): the scenario strategy at elapsed times
exactly 4.0 (still a motion command) and 5.0 (planning and done). -/
theorem ft_update_strict_boundary_witness :
    ((FixedTrajectoryBaseline.update 4 [scenGrasp] scenState).2 =
          .commanded scenState.targetRotation
            (scenState.origin.add
              ⟨(radius : ℝ) * Real.cos (angleInterp ((4 : ℚ) - scenState.tic)),
               (radius : ℝ) * Real.sin (angleInterp ((4 : ℚ) - scenState.tic)), 0⟩)
        ∧ (FixedTrajectoryBaseline.update 4 [scenGrasp] scenState).1.done = scenState.done)
    ∧ FixedTrajectoryBaseline.update 5 [scenGrasp] scenState =
        ({ scenState with
            tsdf := scenState.tsdf ++ [scenSample],
            bestGrasp := some ((scenState.H_B_T.comp (canonGrasp scenGrasp).pose).comp
              scenState.H_EE_G.inv),
            done := some true }, .planned) :=
  ⟨(ft_update_strict_boundary 4 [scenGrasp] scenState scenSample
      ((scenState.H_B_T.comp (canonGrasp scenGrasp).pose).comp scenState.H_EE_G.inv)
      [canonGrasp scenGrasp] rfl).1
      (by simp only [show scenState.tic = 0 from rfl, sub_zero, duration]),
   (ft_update_strict_boundary 5 [scenGrasp] scenState scenSample
      ((scenState.H_B_T.comp (canonGrasp scenGrasp).pose).comp scenState.H_EE_G.inv)
      [canonGrasp scenGrasp] rfl).2
      (by rw [show scenState.tic = 0 from rfl, sub_zero]; norm_num [duration]) rfl⟩

end ActiveGrasp
